import Mathlib

/-!
Verification of the provider routing and invocation engine of the
goblin-assistant repository (`src/routing/router.py` and
`src/routing/invoke_provider_impl.py`), shallowly embedded in Lean 4.

Python floats are modelled as rationals (`ℚ`), Python dictionaries keyed by
provider id as total functions `String → _` updated with `Function.update`
(a missing entry is the lazily-created default record), wall-clock readings
and random jitter draws as explicit oracle parameters, and the network as an
oracle giving the outcome of each HTTP call in sequence.  A Python exception
that escapes a function is an `Except.error`.
-/

namespace GoblinRouting

/-- Telemetry record for one provider, mirroring the per-provider entry of
the `METRICS` dictionary: `{"latencies": [], "succ": 0, "fail": 0}` (the
`tokens_per_sec` field of `ensure_metrics` is unused by the code; bandwidth
samples live in the separate `BANDWIDTH_METRICS` dictionary, modelled as the
`bw` field of `TelemetryState`). -/
structure MetricsRec where
  latencies : List ℚ := []
  succ : Nat := 0
  fail : Nat := 0
deriving Repr, DecidableEq

/-- State of the telemetry store: `METRICS` and `BANDWIDTH_METRICS`.
A provider id not yet touched maps to the default (lazily-created) record. -/
structure TelemetryState where
  metrics : String → MetricsRec
  bw : String → List ℚ

/-- Initial telemetry state: no provider has any recorded sample. -/
def TelemetryState.init : TelemetryState :=
  { metrics := fun _ => {}, bw := fun _ => [] }

/-- Embeds `record_latency`: append the sample, then drop the oldest sample
when the buffer exceeds 100 entries (`pop(0)`). -/
def record_latency (ms : ℚ) (m : MetricsRec) : MetricsRec :=
  let ls := m.latencies ++ [ms]
  { m with latencies := if ls.length > 100 then ls.drop 1 else ls }

/-- Embeds `record_success`: increment the success counter. -/
def record_success (m : MetricsRec) : MetricsRec :=
  { m with succ := m.succ + 1 }

/-- Embeds `record_fail`: increment the failure counter. -/
def record_fail (m : MetricsRec) : MetricsRec :=
  { m with fail := m.fail + 1 }

/-- Embeds `record_bandwidth`: append the tokens-per-second sample to the
`BANDWIDTH_METRICS` buffer, dropping the oldest sample beyond 50 entries. -/
def record_bandwidth (tps : ℚ) (l : List ℚ) : List ℚ :=
  let ls := l ++ [tps]
  if ls.length > 50 then ls.drop 1 else ls

/-- One operation of the telemetry store, tagged with the provider id it
targets. -/
inductive TelemetryOp where
  | latency (pid : String) (ms : ℚ)
  | success (pid : String)
  | failure (pid : String)
  | bandwidth (pid : String) (tps : ℚ)
deriving Repr, DecidableEq

/-- Applies one telemetry-store operation to the store state. -/
def applyTelemetryOp (st : TelemetryState) : TelemetryOp → TelemetryState
  | .latency pid ms =>
      { st with metrics := Function.update st.metrics pid (record_latency ms (st.metrics pid)) }
  | .success pid =>
      { st with metrics := Function.update st.metrics pid (record_success (st.metrics pid)) }
  | .failure pid =>
      { st with metrics := Function.update st.metrics pid (record_fail (st.metrics pid)) }
  | .bandwidth pid tps =>
      { st with bw := Function.update st.bw pid (record_bandwidth tps (st.bw pid)) }

/-- Runs a sequence of telemetry-store operations from a starting state. -/
def runTelemetry (st : TelemetryState) (ops : List TelemetryOp) : TelemetryState :=
  ops.foldl applyTelemetryOp st

/-- Both ring buffers of every provider are within their caps. -/
def TelemetryCaps (st : TelemetryState) : Prop :=
  ∀ pid, (st.metrics pid).latencies.length ≤ 100 ∧ (st.bw pid).length ≤ 50

-- -------------------------
-- Circuit breaker (`CB_STATE` and the `breaker_*` helpers)
/-- Per-provider circuit-breaker state: `{"fails": 0, "open_until": 0}`. -/
structure CBState where
  fails : Nat := 0
  open_until : ℚ := 0
deriving Repr, DecidableEq

/-- Embeds `breaker_allows`: the provider is allowed unless the current time
is strictly before `open_until`. -/
def breaker_allows (now : ℚ) (st : CBState) : Bool :=
  !(now < st.open_until)

/-- Embeds `breaker_record_failure` (defaults `threshold=3`,
`open_seconds=30`): increment the consecutive-failure counter; on reaching
the threshold, open the breaker until `now + open_seconds` and reset the
counter. -/
def breaker_record_failure (now : ℚ) (st : CBState)
    (threshold : Nat := 3) (open_seconds : ℚ := 30) : CBState :=
  let st := { st with fails := st.fails + 1 }
  if st.fails ≥ threshold then
    { fails := 0, open_until := now + open_seconds }
  else
    st

/-- Embeds `breaker_record_success`: reset the consecutive-failure counter
(the `open_until` timestamp is left untouched). -/
def breaker_record_success (st : CBState) : CBState :=
  { st with fails := 0 }

-- -------------------------
-- Circuit breaker behaviour (claim C3)
/-- Fresh circuit-breaker entry, as created by
`CB_STATE.setdefault(pid, {"fails": 0, "open_until": 0})`. -/
def CBState.init : CBState := {}

-- -------------------------
-- String helpers (Python `startswith` / `in`)
/-- Tests whether the second list is a leading segment of the first
(structurally recursive, so it evaluates inside the kernel). -/
def listStarts : List Char → List Char → Bool
  | _, [] => true
  | [], _ :: _ => false
  | a :: as, b :: bs => a == b && listStarts as bs

/-- Embeds Python `s.startswith(pat)`. -/
def strStarts (s pat : String) : Bool := listStarts s.toList pat.toList

/-- Helper for the substring test: does `pat` start at some position? -/
def charsContain (pat : List Char) : List Char → Bool
  | [] => listStarts [] pat
  | c :: cs => listStarts (c :: cs) pat || charsContain pat cs

/-- Embeds Python `pat in s` (substring test). -/
def strContains (s pat : String) : Bool := charsContain pat.toList s.toList

-- -------------------------
-- Provider registry and configuration (`providers.toml` keys used by the code,
-- with the code's `get` defaults)
/-- One provider descriptor, with the fields `router.py` and
`invoke_provider_impl.py` read from the `providers` table.  Optional fields
keep the Python `dict.get` default noted on each field. -/
structure ProviderCfg where
  capabilities : List String := []
  models : Option (List String) := none
  endpoint : String := ""
  api_key_env : Option String := none
  priority_tier : ℚ := 2
  cost_score : ℚ := 1/2
  bandwidth_score : ℚ := 1/2
  default_timeout_ms : Option ℚ := none
  invoke_path : Option String := none
  supports_cot : Bool := true
  cot_suppression_prompt : Option String := none
deriving Repr, DecidableEq

/-- Scoring weights (`SCORING_WEIGHTS`); field defaults are the code's
fallback `{"latency": 0.4, "cost": 0.3, "reliability": 0.2, "bandwidth": 0.1}`
used when the config file lacks a `scoring_weights` table. -/
structure Weights where
  latency : ℚ := 2/5
  cost : ℚ := 3/10
  reliability : ℚ := 1/5
  bandwidth : ℚ := 1/10
deriving Repr, DecidableEq

/-- Cost-optimization config (`COST_OPTIMIZATION`), with the code's `get`
defaults. -/
structure CostOpt where
  max_budget_per_hour : ℚ := 10
  preferred_providers_under_budget : List String := []
deriving Repr, DecidableEq

/-- Code-level default for `DEFAULT_TIMEOUT_MS` when the config file lacks
`default_timeout_ms`. -/
def DEFAULT_TIMEOUT_MS : ℚ := 12000

-- -------------------------
-- Scorer
/-- Embeds `moving_avg`: `None` on an empty list, otherwise the mean of the
last `n` (default 8) samples (`latencies[-n:]`). -/
def moving_avg (latencies : List ℚ) (n : Nat := 8) : Option ℚ :=
  if latencies.isEmpty then none
  else
    let tail := latencies.drop (latencies.length - n)
    some (tail.sum / tail.length)

/-- Embeds `get_bandwidth_score`: the neutral score 0.5 when no samples are
recorded, otherwise the mean of all recorded tokens-per-second samples. -/
def get_bandwidth_score (samples : List ℚ) : ℚ :=
  if samples.isEmpty then 1/2 else samples.sum / samples.length

/-- Embeds the success-rate computation of `score_provider` (lines 133-136):
`succ / (succ + fail)` when at least one attempt was recorded, otherwise the
optimistic prior 0.9. -/
def succRate (m : MetricsRec) : ℚ :=
  if 0 < m.succ + m.fail then (m.succ : ℚ) / ((m.succ : ℚ) + (m.fail : ℚ)) else 9/10

/-- Embeds the latency term of `score_provider` (lines 126-130): the moving
average is used when present *and non-zero* (Python `or` treats a `0.0`
average as absent), otherwise half the provider's timeout. -/
def latencyInput (m : MetricsRec) (timeout_ms : ℚ) : ℚ :=
  match moving_avg m.latencies with
  | some v => if v = 0 then timeout_ms / 2 else v
  | none => timeout_ms / 2

/-- Embeds the weighted sum of `score_provider` (lines 156-165). -/
def weighted_total (priority_score cost_score latency_score reliability_multiplier
    bandwidth_combined : ℚ) (w : Weights) : ℚ :=
  priority_score + cost_score * w.cost * 5 + latency_score * w.latency
    + reliability_multiplier * w.reliability * 10
    + (1 - bandwidth_combined) * w.bandwidth * 5

/-- Embeds the modifier chain of `score_provider` (lines 167-178): the
`prefer_local` loopback discount, the `prefer_cost` surcharge, the flat 1000
circuit-open penalty, and the jitter draw. -/
def apply_modifiers (score cost_score : ℚ) (localLoop prefer_cost breakerOk : Bool)
    (jitter : ℚ) : ℚ :=
  let score := if localLoop then score * (3/5) else score
  let score := if prefer_cost then score + cost_score * 10 else score
  let score := if !breakerOk then score + 1000 else score
  score + jitter

/-- Embeds the body of `score_provider` past the capability guard.
`costTracked` is `COST_TRACKING.get(pid, 0)`, `bwSamples` is
`BANDWIDTH_METRICS.get(pid, [])`, `breakerOk` is `breaker_allows(pid)` at
call time, and `jitter` is the `random.random() * 0.01` draw. -/
def score_provider_val (pid : String) (p : ProviderCfg) (m : MetricsRec)
    (bwSamples : List ℚ) (costTracked : ℚ) (costOpt : CostOpt) (w : Weights)
    (prefer_local prefer_cost : Bool) (breakerOk : Bool) (jitter : ℚ) : ℚ :=
  let priority_score := p.priority_tier * 10
  let cost_score := p.cost_score
  let lat := latencyInput m (p.default_timeout_ms.getD DEFAULT_TIMEOUT_MS)
  let latency_score := lat / 1000 * 2
  let reliability_multiplier := 1 - succRate m * (45/100)
  let bandwidth_combined := (get_bandwidth_score bwSamples + p.bandwidth_score) / 2
  let cost_over_limit := costOpt.max_budget_per_hour < costTracked
  let cost_score := if cost_over_limit ∧ pid ∉ costOpt.preferred_providers_under_budget
                    then cost_score * 2 else cost_score
  let total := weighted_total priority_score cost_score latency_score
                 reliability_multiplier bandwidth_combined w
  apply_modifiers total cost_score
    (prefer_local && strStarts p.endpoint "http://127.0.0.1") prefer_cost breakerOk jitter

/-- Embeds `score_provider`: `none` models the `float("inf")` returned when
the provider lacks the requested capability. -/
def score_provider (pid : String) (p : ProviderCfg) (capability : String)
    (m : MetricsRec) (bwSamples : List ℚ) (costTracked : ℚ) (costOpt : CostOpt)
    (w : Weights) (prefer_local prefer_cost : Bool) (breakerOk : Bool)
    (jitter : ℚ) : Option ℚ :=
  if capability ∈ p.capabilities then
    some (score_provider_val pid p m bwSamples costTracked costOpt w
      prefer_local prefer_cost breakerOk jitter)
  else
    none

-- -------------------------
-- Payloads, message aliasing, and chain-of-thought suppression
/-- Address of a message dictionary in the Python object heap.  `payload.copy()`
is a shallow copy: the copy holds the same list of message addresses, so a
write through an address is visible from both the original and the copy. -/
abbrev Addr := Nat

/-- One chat message dictionary (`{"role": ..., "content": ...}`). -/
structure Msg where
  role : String
  content : String
deriving Repr, DecidableEq

/-- The heap of message dictionaries. -/
abbrev Heap := Addr → Msg

/-- The task payload, restricted to the keys `route_task` reads: an optional
`prompt` string (immutable) and an optional `messages` list of message
addresses.  Other keys (`max_tokens`, `temperature`, ...) are only forwarded
into request bodies, which the network oracle abstracts. -/
structure Payload where
  prompt : Option String := none
  messages : Option (List Addr) := none
deriving Repr, DecidableEq

/-- One entry of `COT_SUPPRESSION["provider_rules"]`, with the code's `get`
defaults. -/
structure CotRule where
  suppress : Bool := false
  suppression_prompt : Option String := none
deriving Repr, DecidableEq

/-- The `chain_of_thought_suppression` config table (`COT_SUPPRESSION`),
with the code's `get` defaults. -/
structure CotConfig where
  suppress_for : List String := []
  force_for : List String := []
  provider_rules : List (String × CotRule) := []
deriving Repr, DecidableEq

/-- Looks a provider id up in the registry (`PROVIDERS.get(pid)`). -/
def lookupProvider (providers : List (String × ProviderCfg)) (pid : String) :
    Option ProviderCfg :=
  (providers.find? (fun pr => pr.1 = pid)).map Prod.snd

/-- Embeds `should_suppress_cot` (router.py lines 185-219). -/
def should_suppress_cot (providers : List (String × ProviderCfg)) (cot : CotConfig)
    (task_type provider_id : String) : Bool × String :=
  let p := (lookupProvider providers provider_id).getD {}
  if !p.supports_cot then (false, "")
  else if task_type ∈ cot.force_for then (false, "")
  else if task_type ∈ cot.suppress_for then
    (true, p.cot_suppression_prompt.getD "Answer directly without showing your reasoning.")
  else
    match (cot.provider_rules.find? (fun r => r.1 = provider_id)).map Prod.snd with
    | some rule =>
        if rule.suppress then (true, rule.suppression_prompt.getD "Be direct and concise.")
        else (false, "")
    | none => (false, "")

/-- Embeds the payload-enhancement block of `route_task` (lines 290-304).
`enhanced_payload = payload.copy()` is shallow, so the `messages` branch
writes through the shared message address, while the `prompt` branch only
rebinds the key in the copy.  `messages[-1]` on an empty list raises
`IndexError`, which this block does not catch. -/
def apply_cot (suppress : Bool) (cot_prompt : String) (payload : Payload)
    (heap : Heap) : Except String (Payload × Heap) :=
  let enhanced := payload
  if suppress && !(cot_prompt == "") then
    match payload.messages with
    | some addrs =>
        match addrs.getLast? with
        | none => .error "IndexError: list index out of range"
        | some a =>
            let last_message := heap a
            if last_message.role == "user" then
              .ok (enhanced, Function.update heap a
                { last_message with
                  content := cot_prompt ++ "\n\n" ++ last_message.content })
            else
              .ok (enhanced, heap)
    | none =>
        match payload.prompt with
        | some s => .ok ({ enhanced with prompt := some (cot_prompt ++ "\n\n" ++ s) }, heap)
        | none => .ok (enhanced, heap)
  else
    .ok (enhanced, heap)

/-- Embeds `p.get("models", [None])[0] or "default"` (router.py line 287):
an absent `models` key or a falsy first entry gives `"default"`; a present
but empty list raises `IndexError`. -/
def model_name (p : ProviderCfg) : Except String String :=
  match p.models with
  | none => .ok "default"
  | some [] => .error "IndexError: list index out of range"
  | some (m :: _) => .ok (if m = "" then "default" else m)

-- -------------------------
-- Invoker (`invoke_provider_impl.py`)
/-- Outcome of one HTTP call, supplied by the network oracle.  `text` is the
generated text extracted from the response body; `none` models a body whose
JSON parsing / field extraction raises. -/
inductive NetOutcome where
  | response (status : Nat) (text : Option String)
  | transportError (msg : String)
deriving Repr, DecidableEq

/-- Context of one invocation: the network outcome, the measured latency,
and the `time.time()` reading the router uses for breaker bookkeeping. -/
structure CallCtx where
  net : NetOutcome
  took_ms : ℚ
  now : ℚ
deriving Repr, DecidableEq

/-- The envelope returned by `invoke_provider`.  `usage_total_tokens` models
a `result.usage` block whose resolved total-token count is present. -/
structure InvokeRes where
  ok : Bool
  error : Option String := none
  text : Option String := none
  usage_total_tokens : Option ℚ := none
deriving Repr, DecidableEq

/-- The control characters `invoke_provider` counts as garbled
(`garbled_chars`, invoke_provider_impl.py lines 151-181). -/
def garbled_chars : List Char :=
  ['\x1c', '\x00', '\x01', '\x02', '\x03', '\x04', '\x05', '\x06', '\x07',
   '\x08', '\x0b', '\x0c', '\x0e', '\x0f', '\x10', '\x11', '\x12', '\x13',
   '\x14', '\x15', '\x16', '\x17', '\x18', '\x19', '\x1a', '\x1b', '\x1d',
   '\x1e', '\x1f']

/-- Embeds the garbled-ratio computation (lines 182-186): the fraction of
garbled characters in the text, or 0 for an empty text. -/
def garbled_ratio (text : String) : ℚ :=
  if text = "" then 0
  else ((text.toList.filter (fun c => c ∈ garbled_chars)).length : ℚ) / (text.length : ℚ)

/-- Embeds the llamacpp (local OpenAI-compatible) non-streaming branch of
`invoke_provider` (lines 77-205, `stream=False` path).  The `client.post`
call at line 131 is *not* inside a `try`, so a transport exception escapes
(`Except.error`).  A status ≥ 400 and a garbled text (ratio strictly above
0.1) both yield `ok:false` envelopes; a body whose parsing raises is caught
by the `try/except` at lines 139-205 and yields the parse-error envelope. -/
def invoke_llamacpp (net : NetOutcome) : Except String InvokeRes :=
  match net with
  | .transportError msg => .error msg
  | .response status text =>
      if status ≥ 400 then
        .ok { ok := false, error := some ("llamacpp-status:" ++ toString status) }
      else
        match text with
        | none => .ok { ok := false, error := some "llamacpp-parse-error" }
        | some t =>
            if garbled_ratio t > 1/10 then
              .ok { ok := false,
                    error := some "llamacpp-garbled-output: Model produced garbled characters. Try a different model." }
            else
              .ok { ok := true, text := some t }

/-- Embeds the OpenAI non-streaming branch of `invoke_provider` (lines
207-288, `stream=False` path).  A missing (absent or empty) API key fails
fast with the `missing-openai-key` envelope before any network call.  The
`client.post` at line 269 and the `r.json()` at line 277 are not wrapped in
a `try`, so a transport or JSON-decode exception escapes. -/
def invoke_openai (api_key : Option String) (net : NetOutcome) : Except String InvokeRes :=
  if (match api_key with | none => true | some s => s = "") then
    .ok { ok := false, error := some "missing-openai-key" }
  else
    match net with
    | .transportError msg => .error msg
    | .response status text =>
        if status ≥ 400 then
          .ok { ok := false, error := some ("openai-status:" ++ toString status) }
        else
          match text with
          | none => .error "json-decode-error"
          | some t => .ok { ok := true, text := some t }

/-- Embeds the remaining provider branches of `invoke_provider` (ollama,
anthropic, grok, gemini, and the generic fallback, lines 290-565).  Every
network call in these branches sits inside a `try/except` that converts a
transport exception into an `ok:false` envelope, and a status ≥ 400 likewise
yields an `ok:false` envelope; the per-branch error-string formats and
text-extraction field paths, which no claim depends on, are collapsed into
the provider-tagged strings below. -/
def invoke_other (pid : String) (net : NetOutcome) : InvokeRes :=
  match net with
  | .transportError msg => { ok := false, error := some msg }
  | .response status text =>
      if status ≥ 400 then
        { ok := false, error := some (pid ++ "-status:" ++ toString status) }
      else
        { ok := true, text := text }

/-- Embeds `invoke_provider`'s branch dispatch (string matching on the
provider id and endpoint, in source order: llamacpp first at line 77, openai
at line 208, then the remaining branches).  The request-body construction is
absorbed by the network oracle, which directly supplies each call's
outcome. -/
def invoke_provider (providers : List (String × ProviderCfg))
    (env : String → Option String) (pid : String) (net : NetOutcome) :
    Except String InvokeRes :=
  match lookupProvider providers pid with
  | none => .ok { ok := false, error := some ("unknown-provider:" ++ pid) }
  | some cfg =>
      let api_key : Option String :=
        match cfg.api_key_env with
        | none => none
        | some k => if k = "" then none else env k
      if pid == "llamacpp" || strContains cfg.endpoint "127.0.0.1:8080" then
        invoke_llamacpp net
      else if pid == "openai" || strContains cfg.endpoint "openai.com" then
        invoke_openai api_key net
      else
        .ok (invoke_other pid net)

-- -------------------------
-- Router (`route_task`, router.py lines 228-395)
/-- Embeds the API-key validity test of `route_task` (lines 246-252): the
resolved value must be truthy (present and non-empty) and must not start
with the placeholder markers. -/
def has_valid_api_key (v : Option String) : Bool :=
  match v with
  | none => false
  | some s => !(s == "") && !(strStarts s "your-") && !(strStarts s "sk-1234567890")

/-- Embeds the per-provider filter of `route_task` (lines 241-259): keep a
provider iff the task type is in its capabilities and it is not skipped by
the credential check.  A provider whose `api_key_env` is absent — or the
empty string, which is falsy in `if api_key_env and not has_valid_api_key` —
is never skipped. -/
def passes_filter (env : String → Option String) (task_type : String)
    (p : ProviderCfg) : Bool :=
  task_type ∈ p.capabilities &&
    (match p.api_key_env with
     | none => true
     | some k => if k = "" then true else has_valid_api_key (env k))

/-- Embeds the candidate list of `route_task` (lines 240-259). -/
def route_candidates (providers : List (String × ProviderCfg))
    (env : String → Option String) (task_type : String) : List String :=
  (providers.filter (fun pr => passes_filter env task_type pr.2)).map Prod.fst

/-- Mutable state the router threads through one `route_task` call: the
telemetry store, the circuit-breaker table, and the cost-tracking table. -/
structure RouterState where
  tel : TelemetryState
  cb : String → CBState
  cost : String → ℚ

/-- Initial router state: all dictionaries empty. -/
def RouterState.init : RouterState :=
  { tel := TelemetryState.init, cb := fun _ => CBState.init, cost := fun _ => 0 }

/-- Embeds the ranking stage of `route_task` (lines 268-282): providers the
circuit breaker does not currently allow are skipped (`continue`) *before*
scoring; the rest are scored and sorted ascending.  `now0` is the
`time.time()` reading during ranking, `jitterOf` the per-provider jitter
draw. -/
def rank_stage (providers : List (String × ProviderCfg)) (costOpt : CostOpt)
    (w : Weights) (task_type : String) (prefer_local prefer_cost : Bool)
    (jitterOf : String → ℚ) (now0 : ℚ) (st : RouterState)
    (candidates : List String) : List (ℚ × String) :=
  candidates.filterMap (fun pid =>
    if breaker_allows now0 (st.cb pid) then
      match lookupProvider providers pid with
      | some cfg =>
          (score_provider pid cfg task_type (st.tel.metrics pid) (st.tel.bw pid)
            (st.cost pid) costOpt w prefer_local prefer_cost
            (breaker_allows now0 (st.cb pid)) (jitterOf pid)).map (fun s => (s, pid))
      | none => none
    else none)

/-- Ascending stable sort by score (`scored.sort(key=lambda x: x[0])`). -/
def sort_scored (scored : List (ℚ × String)) : List (ℚ × String) :=
  scored.insertionSort (fun a b => a.1 ≤ b.1)

/-- One observable event of a `route_task` run: a provider invocation or a
backoff sleep (seconds). -/
inductive REvent where
  | invoke (pid : String)
  | sleep (seconds : ℚ)
deriving Repr, DecidableEq

/-- Result of the per-candidate retry loop: the successful envelope and its
measured latency, if any; the updated router state; the next call index; the
events of this phase; and the last observed error. -/
structure AttemptOut where
  success : Option (InvokeRes × ℚ)
  st : RouterState
  k : Nat
  events : List REvent
  lastErr : Option String

/-- Embeds the per-candidate retry loop of `route_task`
(`for attempt in range(max_retries + 1)`, lines 307-365).  On an `ok:false`
envelope: record latency and cost, record the failure, advance the breaker,
sleep `0.2 * (attempt + 1)` seconds, retry.  On an exception escaping
`invoke_provider` (`except Exception`): record the failure and advance the
breaker (no latency/cost recording), sleep, retry.  On success: record
latency, cost, success, reset the breaker, record bandwidth when usage is
reported, and stop. -/
def attempt_loop (providers : List (String × ProviderCfg))
    (env : String → Option String) (oracle : Nat → CallCtx) (pid : String)
    (cfg : ProviderCfg) : Nat → Nat → RouterState → Nat → Option String → AttemptOut
  | 0, _, st, k, lastErr => ⟨none, st, k, [], lastErr⟩
  | fuel + 1, attempt, st, k, lastErr =>
      let ctx := oracle k
      match invoke_provider providers env pid ctx.net with
      | .error e =>
          let st := { st with
            tel := applyTelemetryOp st.tel (.failure pid),
            cb := Function.update st.cb pid (breaker_record_failure ctx.now (st.cb pid)) }
          let out := attempt_loop providers env oracle pid cfg fuel (attempt + 1) st (k + 1) (some e)
          { out with events := .invoke pid :: .sleep (1/5 * ((attempt : ℚ) + 1)) :: out.events }
      | .ok res =>
          let took := ctx.took_ms
          let st := { st with
            tel := applyTelemetryOp st.tel (.latency pid took),
            cost := Function.update st.cost pid (st.cost pid + cfg.cost_score * (1/1000)) }
          if res.ok then
            let st := { st with
              tel := applyTelemetryOp st.tel (.success pid),
              cb := Function.update st.cb pid (breaker_record_success (st.cb pid)) }
            let st :=
              match res.usage_total_tokens with
              | some total =>
                  if 0 < total ∧ 0 < took then
                    { st with tel := applyTelemetryOp st.tel (.bandwidth pid (total / took * 1000)) }
                  else st
              | none => st
            ⟨some (res, took), st, k + 1, [.invoke pid], lastErr⟩
          else
            let st := { st with
              tel := applyTelemetryOp st.tel (.failure pid),
              cb := Function.update st.cb pid (breaker_record_failure ctx.now (st.cb pid)) }
            let out := attempt_loop providers env oracle pid cfg fuel (attempt + 1) st (k + 1) res.error
            { out with events := .invoke pid :: .sleep (1/5 * ((attempt : ℚ) + 1)) :: out.events }

/-- The envelope `route_task` returns to its caller. -/
structure RouteResult where
  ok : Bool
  provider : Option String := none
  model : Option String := none
  text : Option String := none
  error : Option String := none
  latency_ms : Option ℚ := none
deriving Repr, DecidableEq

/-- Outcome of the candidate loop: the threaded state, heap, call index,
events and last error, plus either a success envelope, exhaustion
(`.ok none`), or an escaped exception. -/
structure LoopOut where
  st : RouterState
  heap : Heap
  k : Nat
  events : List REvent
  lastErr : Option String
  res : Except String (Option RouteResult)

/-- Embeds the candidate loop of `route_task` (`for _, pid in scored:`,
lines 285-365): per candidate, resolve the model name, apply
chain-of-thought suppression to a shallow copy of the payload, then run the
retry loop; stop on the first success. -/
def try_candidates (providers : List (String × ProviderCfg))
    (env : String → Option String) (cot : CotConfig) (oracle : Nat → CallCtx)
    (task_type : String) (payload : Payload) (max_retries : Nat) :
    List String → Heap → RouterState → Nat → List REvent → Option String → LoopOut
  | [], heap, st, k, events, lastErr => ⟨st, heap, k, events, lastErr, .ok none⟩
  | pid :: rest, heap, st, k, events, lastErr =>
      match lookupProvider providers pid with
      | none => ⟨st, heap, k, events, lastErr, .error ("KeyError: " ++ pid)⟩
      | some cfg =>
          match model_name cfg with
          | .error e => ⟨st, heap, k, events, lastErr, .error e⟩
          | .ok mname =>
              let sc := should_suppress_cot providers cot task_type pid
              match apply_cot sc.1 sc.2 payload heap with
              | .error e => ⟨st, heap, k, events, lastErr, .error e⟩
              | .ok (_enhanced, heap') =>
                  let out := attempt_loop providers env oracle pid cfg
                    (max_retries + 1) 0 st k lastErr
                  match out.success with
                  | some (res, took) =>
                      ⟨out.st, heap', out.k, events ++ out.events, out.lastErr,
                        .ok (some { ok := true, provider := some pid, model := some mname,
                                    text := res.text, latency_ms := some took })⟩
                  | none =>
                      try_candidates providers env cot oracle task_type payload max_retries
                        rest heap' out.st out.k (events ++ out.events) out.lastErr

/-- Embeds the local-fallback pass of `route_task` (lines 366-394): one
unranked pass over the whole registry, attempting each loopback provider
that supports the task type once, with the *original* payload, no telemetry
or breaker recording, and — decisively — no `try/except` around
`invoke_provider`, so an exception escapes `route_task`.  A `models: []`
entry raises `IndexError` while building the call's arguments.  The
envelope's latency field (copied from the invoke result) is not modelled. -/
def local_fallback (providers : List (String × ProviderCfg))
    (env : String → Option String) (oracle : Nat → CallCtx) (task_type : String) :
    List (String × ProviderCfg) → Nat → List REvent →
    Except String (Option RouteResult) × Nat × List REvent
  | [], k, events => (.ok none, k, events)
  | (pid, p) :: rest, k, events =>
      if strStarts p.endpoint "http://127.0.0.1" && task_type ∈ p.capabilities then
        match p.models with
        | some [] => (.error "IndexError: list index out of range", k, events)
        | mo =>
            let mdl : Option String :=
              match mo with
              | some (m :: _) => some m
              | _ => none
            match invoke_provider providers env pid (oracle k).net with
            | .error e => (.error e, k + 1, events ++ [.invoke pid])
            | .ok res =>
                if res.ok then
                  (.ok (some { ok := true, provider := some pid, model := mdl,
                               text := res.text }), k + 1, events ++ [.invoke pid])
                else
                  local_fallback providers env oracle task_type rest (k + 1)
                    (events ++ [.invoke pid])
      else
        local_fallback providers env oracle task_type rest k events

/-- Everything observable about one `route_task` call: the returned envelope
(or the exception that escaped), the final shared state, the final message
heap, and the invocation/sleep events in order. -/
structure RouterOut where
  res : Except String RouteResult
  st : RouterState
  heap : Heap
  events : List REvent

/-- Embeds `route_task` (router.py lines 228-395, `stream=False` path):
filter, rank, attempt candidates in score order with bounded retries, then
the local-fallback pass, then the final failure envelope
(`last_err or "no-provider-available"`, with Python truthiness on the empty
string). -/
def route_task (providers : List (String × ProviderCfg))
    (env : String → Option String) (cot : CotConfig) (costOpt : CostOpt)
    (w : Weights) (task_type : String) (payload : Payload) (heap : Heap)
    (prefer_local prefer_cost : Bool) (max_retries : Nat)
    (oracle : Nat → CallCtx) (jitterOf : String → ℚ) (now0 : ℚ)
    (st : RouterState) : RouterOut :=
  let candidates := route_candidates providers env task_type
  if candidates.isEmpty then
    let r : RouteResult :=
      { ok := false,
        error := some ("No providers with valid API keys for capability " ++ task_type) }
    { res := .ok r, st := st, heap := heap, events := [] }
  else
    let scored := rank_stage providers costOpt w task_type prefer_local prefer_cost
      jitterOf now0 st candidates
    if scored.isEmpty then
      let r : RouteResult :=
        { ok := false, error := some "All providers circuit-open or none available" }
      { res := .ok r, st := st, heap := heap, events := [] }
    else
      let sorted := sort_scored scored
      let lo := try_candidates providers env cot oracle task_type payload max_retries
        (sorted.map Prod.snd) heap st 0 [] none
      match lo.res with
      | .error e => { res := .error e, st := lo.st, heap := lo.heap, events := lo.events }
      | .ok (some r) => { res := .ok r, st := lo.st, heap := lo.heap, events := lo.events }
      | .ok none =>
          match local_fallback providers env oracle task_type providers lo.k lo.events with
          | (.error e, _, fevents) =>
              { res := .error e, st := lo.st, heap := lo.heap, events := fevents }
          | (.ok (some r), _, fevents) =>
              { res := .ok r, st := lo.st, heap := lo.heap, events := fevents }
          | (.ok none, _, fevents) =>
              let msg : String :=
                match lo.lastErr with
                | some e => if e = "" then "no-provider-available" else e
                | none => "no-provider-available"
              let r : RouteResult := { ok := false, error := some msg }
              { res := .ok r, st := lo.st, heap := lo.heap, events := fevents }

-- -------------------------
-- Retry bound (claim C2)
/-- Holds when an invocation outcome is a failure from the retry loop's
point of view: either an `ok:false` envelope or an exception caught by its
`except Exception` arm. -/
def isFailO (r : Except String InvokeRes) : Bool :=
  match r with
  | .error _ => true
  | .ok res => !res.ok

/-- The event trace of a run of the retry loop in which every attempt fails:
one invocation followed by a `0.2 * (attempt + 1)`-second backoff sleep, per
attempt. -/
def backoff_events (pid : String) : Nat → Nat → List REvent
  | _, 0 => []
  | attempt, fuel + 1 =>
      .invoke pid :: .sleep (1/5 * ((attempt : ℚ) + 1)) :: backoff_events pid (attempt + 1) fuel

-- -------------------------
-- Telemetry lemmas
theorem record_latency_cap (ms : ℚ) (m : MetricsRec)
    (h : m.latencies.length ≤ 100) :
    (record_latency ms m).latencies.length ≤ 100 := by
  unfold record_latency
  dsimp only
  split
  next hgt =>
    simp only [List.length_drop, List.length_append, List.length_cons, List.length_nil]
    omega
  next hle =>
    simp only [gt_iff_lt, not_lt, List.length_append, List.length_cons,
      List.length_nil] at hle
    simpa using hle

theorem record_bandwidth_cap (tps : ℚ) (l : List ℚ)
    (h : l.length ≤ 50) :
    (record_bandwidth tps l).length ≤ 50 := by
  unfold record_bandwidth
  dsimp only
  split
  next hgt =>
    simp only [List.length_drop, List.length_append, List.length_cons, List.length_nil]
    omega
  next hle =>
    simp only [gt_iff_lt, not_lt, List.length_append, List.length_cons,
      List.length_nil] at hle
    simpa using hle

theorem applyTelemetryOp_caps (st : TelemetryState) (op : TelemetryOp)
    (h : TelemetryCaps st) : TelemetryCaps (applyTelemetryOp st op) := by
  intro pid
  cases op with
  | latency q ms =>
      simp only [applyTelemetryOp]
      by_cases hq : q = pid
      · subst hq
        simp only [Function.update_same]
        exact ⟨record_latency_cap ms _ (h q).1, (h q).2⟩
      · rw [Function.update_noteq (fun hc => hq hc.symm)]
        exact h pid
  | success q =>
      simp only [applyTelemetryOp]
      by_cases hq : q = pid
      · subst hq
        simp only [Function.update_same]
        exact ⟨(h q).1, (h q).2⟩
      · rw [Function.update_noteq (fun hc => hq hc.symm)]
        exact h pid
  | failure q =>
      simp only [applyTelemetryOp]
      by_cases hq : q = pid
      · subst hq
        simp only [Function.update_same]
        exact ⟨(h q).1, (h q).2⟩
      · rw [Function.update_noteq (fun hc => hq hc.symm)]
        exact h pid
  | bandwidth q tps =>
      simp only [applyTelemetryOp]
      by_cases hq : q = pid
      · subst hq
        simp only [Function.update_same]
        exact ⟨(h q).1, record_bandwidth_cap tps _ (h q).2⟩
      · rw [Function.update_noteq (fun hc => hq hc.symm)]
        exact h pid

theorem runTelemetry_caps (st : TelemetryState) (ops : List TelemetryOp)
    (h : TelemetryCaps st) : TelemetryCaps (runTelemetry st ops) := by
  induction ops generalizing st with
  | nil => exact h
  | cons op rest ih => exact ih _ (applyTelemetryOp_caps st op h)

theorem applyTelemetryOp_counters_mono (st : TelemetryState) (op : TelemetryOp)
    (pid : String) :
    (st.metrics pid).succ ≤ ((applyTelemetryOp st op).metrics pid).succ ∧
    (st.metrics pid).fail ≤ ((applyTelemetryOp st op).metrics pid).fail := by
  cases op with
  | latency q ms =>
      simp only [applyTelemetryOp]
      by_cases hq : q = pid
      · subst hq; simp [record_latency]
      · rw [Function.update_noteq (fun hc => hq hc.symm)]; exact ⟨le_refl _, le_refl _⟩
  | success q =>
      simp only [applyTelemetryOp]
      by_cases hq : q = pid
      · subst hq
        simp only [Function.update_same, record_success]
        exact ⟨Nat.le_succ _, le_refl _⟩
      · rw [Function.update_noteq (fun hc => hq hc.symm)]; exact ⟨le_refl _, le_refl _⟩
  | failure q =>
      simp only [applyTelemetryOp]
      by_cases hq : q = pid
      · subst hq
        simp only [Function.update_same, record_fail]
        exact ⟨le_refl _, Nat.le_succ _⟩
      · rw [Function.update_noteq (fun hc => hq hc.symm)]; exact ⟨le_refl _, le_refl _⟩
  | bandwidth q tps =>
      simp only [applyTelemetryOp]
      exact ⟨le_refl _, le_refl _⟩

theorem runTelemetry_counters_mono (st : TelemetryState) (ops : List TelemetryOp)
    (pid : String) :
    (st.metrics pid).succ ≤ ((runTelemetry st ops).metrics pid).succ ∧
    (st.metrics pid).fail ≤ ((runTelemetry st ops).metrics pid).fail := by
  induction ops generalizing st with
  | nil => exact ⟨le_refl _, le_refl _⟩
  | cons op rest ih =>
      have h1 := applyTelemetryOp_counters_mono st op pid
      have h2 := ih (applyTelemetryOp st op)
      exact ⟨le_trans h1.1 h2.1, le_trans h1.2 h2.2⟩

/-- C9: after any sequence of telemetry-store operations (starting from the
empty store), every provider's latency ring buffer holds at most 100 samples
and its tokens-per-second ring buffer at most 50 samples, and the success
and failure counters never decrease across any further operations. -/
theorem telemetry_caps_and_counters_monotone (ops more : List TelemetryOp) (pid : String) :
    ((runTelemetry TelemetryState.init ops).metrics pid).latencies.length ≤ 100 ∧
    ((runTelemetry TelemetryState.init ops).bw pid).length ≤ 50 ∧
    ((runTelemetry TelemetryState.init ops).metrics pid).succ ≤
      ((runTelemetry TelemetryState.init (ops ++ more)).metrics pid).succ ∧
    ((runTelemetry TelemetryState.init ops).metrics pid).fail ≤
      ((runTelemetry TelemetryState.init (ops ++ more)).metrics pid).fail := by
  have hcaps : TelemetryCaps (runTelemetry TelemetryState.init ops) := by
    apply runTelemetry_caps
    intro q
    simp [TelemetryState.init]
  have hmono := runTelemetry_counters_mono (runTelemetry TelemetryState.init ops) more pid
  have happ : runTelemetry TelemetryState.init (ops ++ more) =
      runTelemetry (runTelemetry TelemetryState.init ops) more := by
    simp [runTelemetry, List.foldl_append]
  exact ⟨(hcaps pid).1, (hcaps pid).2, by rw [happ]; exact hmono.1, by rw [happ]; exact hmono.2⟩

/-- C3: starting from a fresh circuit-breaker entry, two consecutive
`breaker_record_failure` calls leave the breaker closed (it still allows the
provider at any non-negative time); the third consecutive failure — with no
intervening `breaker_record_success` — sets `open_until` to the failure time
plus the 30-second cooldown and resets the counter to zero; from then on
`breaker_allows` returns true exactly when the cooldown has elapsed, with no
further action required; and `breaker_record_success` resets the
consecutive-failure counter to zero. -/
theorem breaker_threshold_cooldown (t1 t2 t3 t : ℚ) (s : CBState) :
    (breaker_record_failure t2 (breaker_record_failure t1 CBState.init)).fails = 2 ∧
    (∀ u : ℚ, 0 ≤ u →
      breaker_allows u (breaker_record_failure t2 (breaker_record_failure t1 CBState.init)) = true) ∧
    breaker_record_failure t3 (breaker_record_failure t2 (breaker_record_failure t1 CBState.init)) =
      { fails := 0, open_until := t3 + 30 } ∧
    (breaker_allows t
        (breaker_record_failure t3 (breaker_record_failure t2 (breaker_record_failure t1 CBState.init))) = true
      ↔ t3 + 30 ≤ t) ∧
    (breaker_record_success s).fails = 0 := by
  refine ⟨by norm_num [breaker_record_failure, CBState.init], ?_, ?_, ?_, rfl⟩
  · intro u hu
    simp only [breaker_record_failure, CBState.init]
    norm_num [breaker_allows]
    linarith
  · norm_num [breaker_record_failure, CBState.init]
  · norm_num [breaker_record_failure, CBState.init, breaker_allows]

/-- Witness for C3 at concrete inputs: after two failures the breaker still
allows the provider; after the third failure at time 2 it refuses at time 3
and allows again at time 32 = 2 + 30. -/
theorem breaker_threshold_cooldown_witness :
    breaker_allows 5
        (breaker_record_failure 1 (breaker_record_failure 0 CBState.init)) = true ∧
    breaker_allows 3
        (breaker_record_failure 2 (breaker_record_failure 1 (breaker_record_failure 0 CBState.init))) ≠ true ∧
    breaker_allows 32
        (breaker_record_failure 2 (breaker_record_failure 1 (breaker_record_failure 0 CBState.init))) = true := by
  refine ⟨(breaker_threshold_cooldown 0 1 2 5 CBState.init).2.1 5 (by norm_num), ?_, ?_⟩
  · intro hc
    have h := ((breaker_threshold_cooldown 0 1 2 3 CBState.init).2.2.2.1).mp hc
    norm_num at h
  · exact ((breaker_threshold_cooldown 0 1 2 32 CBState.init).2.2.2.1).mpr (by norm_num)

-- -------------------------
-- Scorer monotonicity (claim C5)
theorem latencyInput_eq_of_pos {m : MetricsRec} {l : ℚ} (t : ℚ)
    (h : moving_avg m.latencies = some l) (hl : l ≠ 0) :
    latencyInput m t = l := by
  unfold latencyInput
  rw [h]
  simp [hl]

theorem apply_modifiers_strictMono {s1 s2 : ℚ} (c : ℚ) (a b k : Bool) (j : ℚ)
    (h : s1 < s2) :
    apply_modifiers s1 c a b k j < apply_modifiers s2 c a b k j := by
  unfold apply_modifiers
  dsimp only
  have h35 : s1 * (3/5) < s2 * (3/5) :=
    mul_lt_mul_of_pos_right h (by norm_num)
  cases a <;> cases b <;> cases k <;> simp <;> linarith

theorem weighted_total_lt_latency {ps cs rel bw l1 l2 : ℚ} {w : Weights}
    (h : l1 < l2) (hw : 0 < w.latency) :
    weighted_total ps cs l1 rel bw w < weighted_total ps cs l2 rel bw w := by
  unfold weighted_total
  have := mul_lt_mul_of_pos_right h hw
  linarith

theorem weighted_total_lt_rel {ps cs latS bw r1 r2 : ℚ} {w : Weights}
    (h : r1 < r2) (hw : 0 < w.reliability) :
    weighted_total ps cs latS r1 bw w < weighted_total ps cs latS r2 bw w := by
  unfold weighted_total
  have h1 : r1 * w.reliability < r2 * w.reliability := mul_lt_mul_of_pos_right h hw
  linarith

/-- C5, counterexample: strictly increasing the moving-average latency from
0 to 1 (all other inputs of `score_provider` held fixed) strictly *decreases*
the score, because Python's `or` treats a `0.0` moving average as missing
and substitutes half the default timeout (6000 ms).  The claim as stated is
therefore false at this input. -/
theorem score_latency_monotonicity_counterexample :
    moving_avg ([0] : List ℚ) = some 0 ∧
    moving_avg ([1] : List ℚ) = some 1 ∧
    score_provider_val "p" { capabilities := ["chat"] } { latencies := [1] } [] 0 {} {}
        false false true 0 <
      score_provider_val "p" { capabilities := ["chat"] } { latencies := [0] } [] 0 {} {}
        false false true 0 := by
  refine ⟨by norm_num [moving_avg], by norm_num [moving_avg], ?_⟩
  norm_num [score_provider_val, latencyInput, moving_avg, succRate,
    get_bandwidth_score, weighted_total, apply_modifiers, DEFAULT_TIMEOUT_MS]

/-- C5 amended: holding every other input of `score_provider` fixed,
strictly increasing a provider's *positive* moving-average latency strictly
increases its score when the configured latency weight is positive (a zero
moving average is treated as absent by Python's `or` and replaced by half
the provider timeout); and strictly increasing its success rate strictly
decreases its score when the configured reliability weight is positive. -/
theorem score_provider_monotonicity (pid : String) (p : ProviderCfg)
    (bwS : List ℚ) (ct : ℚ) (co : CostOpt) (w : Weights)
    (pl pc bok : Bool) (j : ℚ) :
    (∀ (m1 m2 : MetricsRec) (l1 l2 : ℚ),
      moving_avg m1.latencies = some l1 → moving_avg m2.latencies = some l2 →
      0 < l1 → l1 < l2 → m1.succ = m2.succ → m1.fail = m2.fail →
      0 < w.latency →
      score_provider_val pid p m1 bwS ct co w pl pc bok j <
        score_provider_val pid p m2 bwS ct co w pl pc bok j) ∧
    (∀ (m1 m2 : MetricsRec),
      m1.latencies = m2.latencies → succRate m1 < succRate m2 →
      0 < w.reliability →
      score_provider_val pid p m2 bwS ct co w pl pc bok j <
        score_provider_val pid p m1 bwS ct co w pl pc bok j) := by
  constructor
  · intro m1 m2 l1 l2 h1 h2 hpos hlt hs hf hw
    have e1 : latencyInput m1 (p.default_timeout_ms.getD DEFAULT_TIMEOUT_MS) = l1 :=
      latencyInput_eq_of_pos _ h1 (ne_of_gt hpos)
    have e2 : latencyInput m2 (p.default_timeout_ms.getD DEFAULT_TIMEOUT_MS) = l2 :=
      latencyInput_eq_of_pos _ h2 (ne_of_gt (lt_trans hpos hlt))
    have er : succRate m1 = succRate m2 := by
      unfold succRate
      rw [hs, hf]
    unfold score_provider_val
    dsimp only
    rw [e1, e2, er]
    exact apply_modifiers_strictMono _ _ _ _ _
      (weighted_total_lt_latency (by linarith) hw)
  · intro m1 m2 hlats hrate hw
    have el : latencyInput m1 (p.default_timeout_ms.getD DEFAULT_TIMEOUT_MS) =
        latencyInput m2 (p.default_timeout_ms.getD DEFAULT_TIMEOUT_MS) := by
      unfold latencyInput
      rw [hlats]
    unfold score_provider_val
    dsimp only
    rw [el]
    exact apply_modifiers_strictMono _ _ _ _ _
      (weighted_total_lt_rel (by linarith) hw)

/-- Witness for the amended C5 at concrete inputs: moving average 100 vs 200
(same counters) strictly increases the score, and success rate 1/2 vs 1
(same latencies) strictly decreases it, under the default weights. -/
theorem score_provider_monotonicity_witness :
    score_provider_val "p" { capabilities := ["chat"] }
        { latencies := [100], succ := 1, fail := 1 } [] 0 {} {} false false true 0 <
      score_provider_val "p" { capabilities := ["chat"] }
        { latencies := [200], succ := 1, fail := 1 } [] 0 {} {} false false true 0 ∧
    score_provider_val "p" { capabilities := ["chat"] }
        { latencies := [100], succ := 2, fail := 0 } [] 0 {} {} false false true 0 <
      score_provider_val "p" { capabilities := ["chat"] }
        { latencies := [100], succ := 1, fail := 1 } [] 0 {} {} false false true 0 := by
  constructor
  · exact (score_provider_monotonicity "p" { capabilities := ["chat"] } [] 0 {} {}
      false false true 0).1
      { latencies := [100], succ := 1, fail := 1 }
      { latencies := [200], succ := 1, fail := 1 } 100 200
      (by norm_num [moving_avg]) (by norm_num [moving_avg])
      (by norm_num) (by norm_num) rfl rfl (by norm_num)
  · exact (score_provider_monotonicity "p" { capabilities := ["chat"] } [] 0 {} {}
      false false true 0).2
      { latencies := [100], succ := 1, fail := 1 }
      { latencies := [100], succ := 2, fail := 0 }
      rfl (by norm_num [succRate]) (by norm_num)

-- -------------------------
-- Candidate filter (claim C4)
theorem passes_filter_iff (env : String → Option String) (task_type : String)
    (p : ProviderCfg) :
    passes_filter env task_type p = true ↔
      task_type ∈ p.capabilities ∧
        (p.api_key_env = none ∨ p.api_key_env = some "" ∨
          ∃ k v, p.api_key_env = some k ∧ env k = some v ∧ v ≠ "" ∧
            strStarts v "your-" = false ∧ strStarts v "sk-1234567890" = false) := by
  unfold passes_filter
  rw [Bool.and_eq_true, decide_eq_true_eq]
  refine and_congr_right (fun _ => ?_)
  cases hk : p.api_key_env with
  | none => simp
  | some k =>
      by_cases hke : k = ""
      · subst hke
        simp
      · dsimp only
        rw [if_neg hke]
        unfold has_valid_api_key
        cases hv : env k with
        | none =>
            constructor
            · intro h
              cases h
            · rintro (h | h | ⟨k', v', hk', hv', _⟩)
              · cases h
              · injection h with h
                exact absurd h hke
              · obtain rfl : k = k' := by injection hk'
                rw [hv] at hv'
                cases hv'
        | some v =>
            simp only [Bool.and_eq_true, Bool.not_eq_true', beq_eq_false_iff_ne,
              ne_eq]
            constructor
            · rintro ⟨⟨hne, h1⟩, h2⟩
              exact Or.inr (Or.inr ⟨k, v, rfl, hv, hne, h1, h2⟩)
            · rintro (h | h | ⟨k', v', hk', hv', hne, h1, h2⟩)
              · cases h
              · injection h with h
                exact absurd h hke
              · obtain rfl : k = k' := by injection hk'
                rw [hv] at hv'
                obtain rfl : v = v' := by injection hv'
                exact ⟨⟨hne, h1⟩, h2⟩

/-- C4: a provider is in `route_task`'s candidate list for a task type iff
the task type is in its capability set and either it declares no credential
environment variable (including the falsy empty-string name) or the resolved
credential is non-empty and not a placeholder; and when the candidate list
is empty, `route_task` returns the `ok:false` no-providers envelope with no
invocation (and no state change). -/
theorem candidate_filter_correct (providers : List (String × ProviderCfg))
    (env : String → Option String) (task_type pid : String) (cot : CotConfig)
    (costOpt : CostOpt) (w : Weights) (payload : Payload) (heap : Heap)
    (pl pc : Bool) (mr : Nat) (oracle : Nat → CallCtx) (jitterOf : String → ℚ)
    (now0 : ℚ) (st : RouterState) :
    (pid ∈ route_candidates providers env task_type ↔
      ∃ p, (pid, p) ∈ providers ∧ task_type ∈ p.capabilities ∧
        (p.api_key_env = none ∨ p.api_key_env = some "" ∨
          ∃ k v, p.api_key_env = some k ∧ env k = some v ∧ v ≠ "" ∧
            strStarts v "your-" = false ∧ strStarts v "sk-1234567890" = false)) ∧
    (route_candidates providers env task_type = [] →
      (route_task providers env cot costOpt w task_type payload heap pl pc mr
          oracle jitterOf now0 st).res =
        .ok { ok := false,
              error := some ("No providers with valid API keys for capability " ++ task_type) } ∧
      (route_task providers env cot costOpt w task_type payload heap pl pc mr
          oracle jitterOf now0 st).events = []) := by
  constructor
  · constructor
    · intro hmem
      simp only [route_candidates, List.mem_map, List.mem_filter] at hmem
      obtain ⟨⟨q, p⟩, ⟨hqp, hpass⟩, hq⟩ := hmem
      subst hq
      exact ⟨p, hqp, (passes_filter_iff env task_type p).mp hpass⟩
    · rintro ⟨p, hmem, hcond⟩
      simp only [route_candidates, List.mem_map, List.mem_filter]
      exact ⟨(pid, p), ⟨hmem, (passes_filter_iff env task_type p).mpr ⟨hcond.1, hcond.2⟩⟩, rfl⟩
  · intro hempty
    have hrt : route_task providers env cot costOpt w task_type payload heap pl pc mr
        oracle jitterOf now0 st =
        ⟨.ok ⟨false, none, none, none,
          some ("No providers with valid API keys for capability " ++ task_type), none⟩,
         st, heap, []⟩ := by
      unfold route_task
      rw [hempty]
      rfl
    exact ⟨by rw [hrt], by rw [hrt]⟩

/-- Witness for C4 at a concrete registry: a provider with the capability
and a placeholder key is filtered out, so the candidate list is empty and
`route_task` returns the no-providers envelope without any invocation. -/
theorem candidate_filter_correct_witness :
    ("p1" ∉ route_candidates
        [("p1", { capabilities := ["chat"], api_key_env := some "K" })]
        (fun _ => some "your-key-here") "chat") ∧
    (route_task [("p1", { capabilities := ["chat"], api_key_env := some "K" })]
        (fun _ => some "your-key-here") {} {} {} "chat" {} (fun _ => ⟨"", ""⟩)
        false false 2 (fun _ => ⟨.response 200 (some "hi"), 1, 0⟩) (fun _ => 0) 0
        RouterState.init).events = [] := by
  have hempty : route_candidates
      [("p1", ({ capabilities := ["chat"], api_key_env := some "K" } : ProviderCfg))]
      (fun _ => some "your-key-here") "chat" = [] := by
    decide
  constructor
  · intro hmem
    have h := ((candidate_filter_correct
        [("p1", { capabilities := ["chat"], api_key_env := some "K" })]
        (fun _ => some "your-key-here") "chat" "p1" {} {} {} {} (fun _ => ⟨"", ""⟩)
        false false 2 (fun _ => ⟨.response 200 (some "hi"), 1, 0⟩) (fun _ => 0) 0
        RouterState.init).1).mp hmem
    obtain ⟨p, hp, _, hcred⟩ := h
    simp at hp
    subst hp
    rcases hcred with h1 | h1 | ⟨k, v, hk, hv, hne, h1, h2⟩ <;> simp_all
  · exact ((candidate_filter_correct
        [("p1", { capabilities := ["chat"], api_key_env := some "K" })]
        (fun _ => some "your-key-here") "chat" "p1" {} {} {} {} (fun _ => ⟨"", ""⟩)
        false false 2 (fun _ => ⟨.response 200 (some "hi"), 1, 0⟩) (fun _ => 0) 0
        RouterState.init).2 hempty).2

-- -------------------------
-- Ranking stage (claim C1)
/-- C1, counterexample: with two capability-matching credential-free
candidates `a` and `b` where `a`'s circuit breaker is open
(`open_until = 100 > now = 0`), `route_task`'s ranking stage drops `a`
entirely (it is skipped by the `breaker_allows` `continue` *before* being
scored) instead of keeping it with a 1000 penalty; only `b` survives into
the ranked list. -/
theorem rank_drops_circuit_open_counterexample :
    "a" ∈ route_candidates
        [("a", ({ capabilities := ["chat"] } : ProviderCfg)),
         ("b", ({ capabilities := ["chat"] } : ProviderCfg))]
        (fun _ => none) "chat" ∧
    breaker_allows 0
      ((Function.update (fun _ => CBState.init) "a" ⟨0, 100⟩ : String → CBState) "a") = false ∧
    "a" ∉ (rank_stage
        [("a", ({ capabilities := ["chat"] } : ProviderCfg)),
         ("b", ({ capabilities := ["chat"] } : ProviderCfg))]
        {} {} "chat" false false (fun _ => 0) 0
        { tel := TelemetryState.init,
          cb := Function.update (fun _ => CBState.init) "a" ⟨0, 100⟩,
          cost := fun _ => 0 }
        (route_candidates
          [("a", ({ capabilities := ["chat"] } : ProviderCfg)),
           ("b", ({ capabilities := ["chat"] } : ProviderCfg))]
          (fun _ => none) "chat")).map Prod.snd ∧
    "b" ∈ (rank_stage
        [("a", ({ capabilities := ["chat"] } : ProviderCfg)),
         ("b", ({ capabilities := ["chat"] } : ProviderCfg))]
        {} {} "chat" false false (fun _ => 0) 0
        { tel := TelemetryState.init,
          cb := Function.update (fun _ => CBState.init) "a" ⟨0, 100⟩,
          cost := fun _ => 0 }
        (route_candidates
          [("a", ({ capabilities := ["chat"] } : ProviderCfg)),
           ("b", ({ capabilities := ["chat"] } : ProviderCfg))]
          (fun _ => none) "chat")).map Prod.snd := by
  decide

theorem apply_modifiers_breaker_penalty (s c : ℚ) (a b : Bool) (j : ℚ) :
    apply_modifiers s c a b false j = apply_modifiers s c a b true j + 1000 := by
  unfold apply_modifiers
  dsimp only
  cases a <;> cases b <;> simp <;> ring

/-- C1 amended: `route_task`'s ranking stage keeps exactly those candidates
whose circuit breaker currently allows them (and that resolve in the
registry with the capability, which every candidate does): circuit-open
providers are *excluded* from the ranked list rather than penalized there.
The 1000 circuit-open penalty exists inside `score_provider` itself — a
circuit-open provider scores exactly 1000 above its healthy score — but
`route_task` checks `breaker_allows` before scoring, so that branch is
unreachable from the ranking stage. -/
theorem rank_stage_excludes_circuit_open (providers : List (String × ProviderCfg))
    (costOpt : CostOpt) (w : Weights) (task_type : String) (pl pc : Bool)
    (jf : String → ℚ) (now0 : ℚ) (st : RouterState) (cands : List String)
    (pid : String) :
    (pid ∈ (rank_stage providers costOpt w task_type pl pc jf now0 st cands).map Prod.snd ↔
      pid ∈ cands ∧ breaker_allows now0 (st.cb pid) = true ∧
        ∃ cfg, lookupProvider providers pid = some cfg ∧ task_type ∈ cfg.capabilities) ∧
    (∀ (pid2 : String) (p : ProviderCfg) (m : MetricsRec) (bwS : List ℚ)
        (ct : ℚ) (co : CostOpt) (w2 : Weights) (pl2 pc2 : Bool) (j : ℚ),
      score_provider_val pid2 p m bwS ct co w2 pl2 pc2 false j =
        score_provider_val pid2 p m bwS ct co w2 pl2 pc2 true j + 1000) := by
  constructor
  · simp only [List.mem_map, List.mem_filterMap, rank_stage]
    constructor
    · rintro ⟨⟨sc, q⟩, ⟨b, hb, hf⟩, hsnd⟩
      dsimp only at hsnd
      subst hsnd
      by_cases hba : breaker_allows now0 (st.cb b) = true
      · rw [if_pos hba] at hf
        cases hlk : lookupProvider providers b with
        | none => rw [hlk] at hf; cases hf
        | some cfg =>
            rw [hlk] at hf
            dsimp only at hf
            rw [Option.map_eq_some'] at hf
            obtain ⟨s', hs', heq⟩ := hf
            cases heq
            unfold score_provider at hs'
            by_cases hcap : task_type ∈ cfg.capabilities
            · exact ⟨hb, hba, cfg, hlk, hcap⟩
            · rw [if_neg hcap] at hs'
              cases hs'
      · rw [if_neg hba] at hf
        cases hf
    · rintro ⟨hc, hba, cfg, hlk, hcap⟩
      refine ⟨(score_provider_val pid cfg (st.tel.metrics pid) (st.tel.bw pid)
        (st.cost pid) costOpt w pl pc (breaker_allows now0 (st.cb pid)) (jf pid), pid),
        ⟨pid, hc, ?_⟩, rfl⟩
      rw [if_pos hba, hlk]
      dsimp only
      unfold score_provider
      rw [if_pos hcap]
      rfl
  · intro pid2 p m bwS ct co w2 pl2 pc2 j
    unfold score_provider_val
    dsimp only
    exact apply_modifiers_breaker_penalty _ _ _ _ _

-- -------------------------
-- Garbled-output detection (claim C6)
theorem garbled_ratio_eval (t : String) (a b : Nat) (ht : ¬t = "")
    (hfil : (t.toList.filter (fun c => c ∈ garbled_chars)).length = a)
    (hlen : t.length = b) :
    garbled_ratio t = (a : ℚ) / (b : ℚ) := by
  unfold garbled_ratio
  rw [if_neg ht, hfil, hlen]

/-- C6, counterexample: a local-provider (llamacpp branch) response whose
extracted text is exactly 10% control characters (1 of 10) is *not* rejected:
the code tests `garbled_ratio > 0.1` strictly, so the boundary case sails
through as a success envelope, contradicting the claim's "at least 10%". -/
theorem garbled_threshold_counterexample :
    garbled_ratio "\x00aaaaaaaaa" = 1/10 ∧
    invoke_llamacpp (.response 200 (some "\x00aaaaaaaaa")) =
      .ok { ok := true, text := some "\x00aaaaaaaaa" } := by
  have hr : garbled_ratio "\x00aaaaaaaaa" = (1 : ℚ) / 10 :=
    garbled_ratio_eval _ 1 10 (by decide) (by decide) (by decide)
  refine ⟨by rw [hr], ?_⟩
  unfold invoke_llamacpp
  dsimp only
  rw [if_neg (by norm_num), if_neg (by rw [hr]; norm_num)]

/-- C6 amended: for every llamacpp-branch (local OpenAI-compatible)
invocation whose transport succeeds (status < 400, parsable body) and whose
extracted text contains *strictly more than* 10% non-printable control
characters, `invoke_provider` returns an `ok:false` envelope carrying the
distinguishable garbled-output error, not a success envelope. -/
theorem garbled_detection (status : Nat) (t : String)
    (hstatus : status < 400) (hratio : garbled_ratio t > 1/10) :
    invoke_llamacpp (.response status (some t)) =
      .ok { ok := false,
            error := some "llamacpp-garbled-output: Model produced garbled characters. Try a different model." } := by
  unfold invoke_llamacpp
  dsimp only
  rw [if_neg (by omega), if_pos hratio]

/-- Witness for the amended C6: a 10-character text with two control
characters (20% > 10%) yields the garbled-output failure envelope. -/
theorem garbled_detection_witness :
    invoke_llamacpp (.response 200 (some "\x00\x00aaaaaaaa")) =
      .ok { ok := false,
            error := some "llamacpp-garbled-output: Model produced garbled characters. Try a different model." } :=
  garbled_detection 200 "\x00\x00aaaaaaaa" (by norm_num)
    (by rw [garbled_ratio_eval _ 2 10 (by decide) (by decide) (by decide)]; norm_num)

theorem backoff_events_count (pid : String) (n : Nat) :
    ∀ a, (backoff_events pid a n).count (REvent.invoke pid) = n := by
  induction n with
  | zero => intro a; rfl
  | succ n ih =>
      intro a
      show ((REvent.invoke pid) :: (REvent.sleep _) :: backoff_events pid (a + 1) n).count
        (REvent.invoke pid) = n + 1
      rw [List.count_cons_self, List.count_cons_of_ne (by simp)]
      rw [ih (a + 1)]

theorem attempt_loop_all_fail (providers : List (String × ProviderCfg))
    (env : String → Option String) (oracle : Nat → CallCtx) (pid : String)
    (cfg : ProviderCfg) (fuel : Nat) :
    ∀ (attempt k : Nat) (st : RouterState) (lastErr : Option String),
      (∀ i, i < fuel → isFailO (invoke_provider providers env pid (oracle (k + i)).net) = true) →
      (attempt_loop providers env oracle pid cfg fuel attempt st k lastErr).success = none ∧
      (attempt_loop providers env oracle pid cfg fuel attempt st k lastErr).k = k + fuel ∧
      ((attempt_loop providers env oracle pid cfg fuel attempt st k lastErr).st.tel.metrics pid).fail
        = (st.tel.metrics pid).fail + fuel ∧
      (attempt_loop providers env oracle pid cfg fuel attempt st k lastErr).events =
        backoff_events pid attempt fuel := by
  induction fuel with
  | zero =>
      intro attempt k st lastErr _
      exact ⟨rfl, rfl, rfl, rfl⟩
  | succ fuel ih =>
      intro attempt k st lastErr hf
      have h0 : isFailO (invoke_provider providers env pid (oracle k).net) = true := by
        have := hf 0 (Nat.succ_pos _)
        rwa [Nat.add_zero] at this
      have hshift : ∀ i, i < fuel →
          isFailO (invoke_provider providers env pid (oracle (k + 1 + i)).net) = true := by
        intro i hi
        have := hf (i + 1) (by omega)
        rwa [show k + (i + 1) = k + 1 + i by omega] at this
      cases hinv : invoke_provider providers env pid (oracle k).net with
      | error e =>
          simp only [attempt_loop, hinv]
          refine ⟨(ih (attempt + 1) (k + 1) _ _ hshift).1, ?_, ?_, ?_⟩
          · rw [(ih (attempt + 1) (k + 1) _ _ hshift).2.1]
            omega
          · rw [(ih (attempt + 1) (k + 1) _ _ hshift).2.2.1]
            rw [show (applyTelemetryOp st.tel (TelemetryOp.failure pid)).metrics pid
                = record_fail (st.tel.metrics pid) by
              simp [applyTelemetryOp, Function.update_same]]
            unfold record_fail
            dsimp only
            omega
          · rw [(ih (attempt + 1) (k + 1) _ _ hshift).2.2.2]
            rfl
      | ok res =>
          rw [hinv] at h0
          have hok : res.ok = false := by
            simpa [isFailO] using h0
          simp only [attempt_loop, hinv, hok]
          rw [if_neg (by simp)]
          dsimp only
          refine ⟨(ih (attempt + 1) (k + 1) _ _ hshift).1, ?_, ?_, ?_⟩
          · rw [(ih (attempt + 1) (k + 1) _ _ hshift).2.1]
            omega
          · rw [(ih (attempt + 1) (k + 1) _ _ hshift).2.2.1]
            rw [show (applyTelemetryOp
                  (applyTelemetryOp st.tel (TelemetryOp.latency pid (oracle k).took_ms))
                  (TelemetryOp.failure pid)).metrics pid
                = record_fail ((applyTelemetryOp st.tel
                    (TelemetryOp.latency pid (oracle k).took_ms)).metrics pid) by
              simp [applyTelemetryOp, Function.update_same]]
            rw [show (applyTelemetryOp st.tel (TelemetryOp.latency pid (oracle k).took_ms)).metrics pid
                = record_latency (oracle k).took_ms (st.tel.metrics pid) by
              simp [applyTelemetryOp, Function.update_same]]
            unfold record_fail record_latency
            dsimp only
            omega
          · rw [(ih (attempt + 1) (k + 1) _ _ hshift).2.2.2]
            rfl

/-- C2: for a candidate provider whose every invocation fails (an `ok:false`
envelope or a caught exception), `route_task`'s per-candidate retry loop
invokes it exactly `max_retries + 1` times — never more, never fewer — with
a linearly increasing backoff sleep of `0.2 * (attempt + 1)` seconds after
each failed attempt, and then hands control back (`success = none`) so the
next-ranked candidate is tried. -/
theorem route_retry_bound (providers : List (String × ProviderCfg))
    (env : String → Option String) (oracle : Nat → CallCtx) (pid : String)
    (cfg : ProviderCfg) (max_retries : Nat) (st : RouterState) (k : Nat)
    (lastErr : Option String)
    (hfail : ∀ i, i ≤ max_retries →
      isFailO (invoke_provider providers env pid (oracle (k + i)).net) = true) :
    (attempt_loop providers env oracle pid cfg (max_retries + 1) 0 st k lastErr).success = none ∧
    (attempt_loop providers env oracle pid cfg (max_retries + 1) 0 st k lastErr).events.count
      (REvent.invoke pid) = max_retries + 1 ∧
    (attempt_loop providers env oracle pid cfg (max_retries + 1) 0 st k lastErr).events =
      backoff_events pid 0 (max_retries + 1) := by
  have h := attempt_loop_all_fail providers env oracle pid cfg (max_retries + 1) 0 k st lastErr
    (fun i hi => hfail i (by omega))
  exact ⟨h.1, by rw [h.2.2.2]; exact backoff_events_count pid (max_retries + 1) 0, h.2.2.2⟩

/-- Witness for C2 with `max_retries = 2` against a provider whose every
call fails (here: the openai branch with no resolvable key): exactly three
invocations, then the loop gives up. -/
theorem route_retry_bound_witness :
    (attempt_loop
      [("openai", ({ capabilities := ["chat"], endpoint := "https://api.openai.com" } : ProviderCfg))]
      (fun _ => none) (fun _ => ⟨.response 200 (some "hi"), 1, 0⟩) "openai"
      ({ capabilities := ["chat"], endpoint := "https://api.openai.com" } : ProviderCfg)
      (2 + 1) 0 RouterState.init 0 none).success = none ∧
    (attempt_loop
      [("openai", ({ capabilities := ["chat"], endpoint := "https://api.openai.com" } : ProviderCfg))]
      (fun _ => none) (fun _ => ⟨.response 200 (some "hi"), 1, 0⟩) "openai"
      ({ capabilities := ["chat"], endpoint := "https://api.openai.com" } : ProviderCfg)
      (2 + 1) 0 RouterState.init 0 none).events.count (REvent.invoke "openai") = 2 + 1 :=
  ⟨(route_retry_bound _ _ _ _ _ 2 _ 0 none (fun i _ => by decide)).1,
   (route_retry_bound _ _ _ _ _ 2 _ 0 none (fun i _ => by decide)).2.1⟩

-- -------------------------
-- Missing-credential handling (claim C7)
/-- C7, counterexample: a provider on the openai branch whose key does not
resolve makes `invoke_provider` return the distinct `missing-openai-key`
envelope before any network call — but `route_task`'s attempt loop, with
`max_retries = 1`, still *retries* it (2 invocations) and *counts* both
failures against the provider: the telemetry failure counter and the circuit
breaker's consecutive-failure counter both advance to 2, contradicting
"never retried, not counted against the circuit breaker". -/
theorem missing_credential_counted_counterexample :
    invoke_provider
        [("openai", ({ capabilities := ["chat"], endpoint := "https://api.openai.com" } : ProviderCfg))]
        (fun _ => none) "openai" (.response 200 (some "hi")) =
      .ok { ok := false, error := some "missing-openai-key" } ∧
    (attempt_loop
        [("openai", ({ capabilities := ["chat"], endpoint := "https://api.openai.com" } : ProviderCfg))]
        (fun _ => none) (fun _ => ⟨.response 200 (some "hi"), 10, 0⟩) "openai"
        ({ capabilities := ["chat"], endpoint := "https://api.openai.com" } : ProviderCfg)
        (1 + 1) 0 RouterState.init 0 none).events.count (REvent.invoke "openai") = 2 ∧
    ((attempt_loop
        [("openai", ({ capabilities := ["chat"], endpoint := "https://api.openai.com" } : ProviderCfg))]
        (fun _ => none) (fun _ => ⟨.response 200 (some "hi"), 10, 0⟩) "openai"
        ({ capabilities := ["chat"], endpoint := "https://api.openai.com" } : ProviderCfg)
        (1 + 1) 0 RouterState.init 0 none).st.tel.metrics "openai").fail = 2 ∧
    ((attempt_loop
        [("openai", ({ capabilities := ["chat"], endpoint := "https://api.openai.com" } : ProviderCfg))]
        (fun _ => none) (fun _ => ⟨.response 200 (some "hi"), 10, 0⟩) "openai"
        ({ capabilities := ["chat"], endpoint := "https://api.openai.com" } : ProviderCfg)
        (1 + 1) 0 RouterState.init 0 none).st.cb "openai").fails = 2 := by
  refine ⟨rfl, by decide, by decide, by decide⟩

/-- C7 amended: a missing or placeholder credential does fail fast inside
`invoke_provider` (the openai branch returns the distinct
`missing-openai-key` envelope for *every* network outcome, i.e. before any
call), but `route_task`'s attempt loop does not distinguish configuration
errors: the `ok:false` envelope is retried the full `max_retries + 1` times
and every attempt is counted as a provider failure (telemetry failure
counter advances by `max_retries + 1`, and the circuit breaker's failure
counter advances at each attempt). -/
theorem missing_credential_conflated (cfg : ProviderCfg)
    (env : String → Option String) (oracle : Nat → CallCtx) (max_retries : Nat)
    (st : RouterState) (k : Nat) (lastErr : Option String)
    (hkey : (match cfg.api_key_env with
             | none => (none : Option String)
             | some kk => if kk = "" then none else env kk) = none ∨
            (match cfg.api_key_env with
             | none => (none : Option String)
             | some kk => if kk = "" then none else env kk) = some "")
    (hno8080 : strContains cfg.endpoint "127.0.0.1:8080" = false) :
    (∀ net, invoke_provider [("openai", cfg)] env "openai" net =
      .ok { ok := false, error := some "missing-openai-key" }) ∧
    (attempt_loop [("openai", cfg)] env oracle "openai" cfg
      (max_retries + 1) 0 st k lastErr).success = none ∧
    (attempt_loop [("openai", cfg)] env oracle "openai" cfg
      (max_retries + 1) 0 st k lastErr).events.count (REvent.invoke "openai")
      = max_retries + 1 ∧
    ((attempt_loop [("openai", cfg)] env oracle "openai" cfg
      (max_retries + 1) 0 st k lastErr).st.tel.metrics "openai").fail
      = (st.tel.metrics "openai").fail + (max_retries + 1) := by
  have hinv : ∀ net, invoke_provider [("openai", cfg)] env "openai" net =
      .ok { ok := false, error := some "missing-openai-key" } := by
    intro net
    unfold invoke_provider
    rw [show lookupProvider [("openai", cfg)] "openai" = some cfg from rfl]
    dsimp only
    rw [if_neg (by simp [hno8080]), if_pos (by simp)]
    unfold invoke_openai
    rcases hkey with hkey | hkey <;> rw [hkey] <;> simp
  have h := attempt_loop_all_fail [("openai", cfg)] env oracle "openai" cfg
    (max_retries + 1) 0 k st lastErr
    (fun i _ => by rw [hinv]; rfl)
  exact ⟨hinv, h.1, by rw [h.2.2.2]; exact backoff_events_count _ _ 0, h.2.2.1⟩

/-- Witness for the amended C7: a keyless openai-branch provider with
`max_retries = 1` is invoked twice and both failures are recorded. -/
theorem missing_credential_conflated_witness :
    invoke_provider
        [("openai", ({ capabilities := ["chat"], endpoint := "https://api.openai.com" } : ProviderCfg))]
        (fun _ => none) "openai" (.transportError "never sent") =
      .ok { ok := false, error := some "missing-openai-key" } ∧
    ((attempt_loop
        [("openai", ({ capabilities := ["chat"], endpoint := "https://api.openai.com" } : ProviderCfg))]
        (fun _ => none) (fun _ => ⟨.transportError "never sent", 10, 0⟩) "openai"
        ({ capabilities := ["chat"], endpoint := "https://api.openai.com" } : ProviderCfg)
        (1 + 1) 0 RouterState.init 0 none).st.tel.metrics "openai").fail = 0 + (1 + 1) :=
  ⟨(missing_credential_conflated
      ({ capabilities := ["chat"], endpoint := "https://api.openai.com" } : ProviderCfg)
      (fun _ => none) (fun _ => ⟨.transportError "never sent", 10, 0⟩) 1
      RouterState.init 0 none (Or.inl rfl) (by decide)).1 (.transportError "never sent"),
   (missing_credential_conflated
      ({ capabilities := ["chat"], endpoint := "https://api.openai.com" } : ProviderCfg)
      (fun _ => none) (fun _ => ⟨.transportError "never sent", 10, 0⟩) 1
      RouterState.init 0 none (Or.inl rfl) (by decide)).2.2.2⟩

-- -------------------------
-- Exception propagation (claim C8)
/-- C8, counterexample: a llamacpp-branch local provider whose transport
raises on every call.  The ranked attempt loop catches the exception three
times (`max_retries = 2`) and retries, but the local-fallback pass then
calls `invoke_provider` with no `try/except`, and the transport exception
escapes the whole `route_task` call (`Except.error`) instead of being
converted into a structured `ok:false` envelope. -/
theorem transport_exception_escapes_counterexample :
    (route_task
        [("local", ({ capabilities := ["chat"], endpoint := "http://127.0.0.1:8080" } : ProviderCfg))]
        (fun _ => none) {} {} {} "chat" {} (fun _ => ⟨"", ""⟩) false false 2
        (fun _ => ⟨.transportError "connection refused", 10, 0⟩) (fun _ => 0) 0
        RouterState.init).res = .error "connection refused" ∧
    (route_task
        [("local", ({ capabilities := ["chat"], endpoint := "http://127.0.0.1:8080" } : ProviderCfg))]
        (fun _ => none) {} {} {} "chat" {} (fun _ => ⟨"", ""⟩) false false 2
        (fun _ => ⟨.transportError "connection refused", 10, 0⟩) (fun _ => 0) 0
        RouterState.init).events.count (REvent.invoke "local") = 4 :=
  ⟨rfl, by decide⟩

/-- C8 amended: inside the ranked attempt loop every failure — HTTP ≥ 400,
garbled output, or a transport exception raised by `invoke_provider` — is
captured and converted into retries and, ultimately, a structured envelope:
a provider whose every call raises is simply retried `max_retries + 1` times
and the loop moves on.  The local-fallback pass, however, is not wrapped:
its `invoke_provider` call propagates a transport exception out of
`route_task` uncaught (the llamacpp and openai branches of
`invoke_provider` do not catch transport errors themselves). -/
theorem fallback_pass_unwrapped (msg : Nat → String) (took now1 : ℚ)
    (max_retries : Nat) (st : RouterState) (k : Nat) (lastErr : Option String)
    (k0 : Nat) (events0 : List REvent) :
    (attempt_loop
        [("local", ({ capabilities := ["chat"], endpoint := "http://127.0.0.1:8080" } : ProviderCfg))]
        (fun _ => none) (fun i => ⟨.transportError (msg i), took, now1⟩) "local"
        ({ capabilities := ["chat"], endpoint := "http://127.0.0.1:8080" } : ProviderCfg)
        (max_retries + 1) 0 st k lastErr).success = none ∧
    (attempt_loop
        [("local", ({ capabilities := ["chat"], endpoint := "http://127.0.0.1:8080" } : ProviderCfg))]
        (fun _ => none) (fun i => ⟨.transportError (msg i), took, now1⟩) "local"
        ({ capabilities := ["chat"], endpoint := "http://127.0.0.1:8080" } : ProviderCfg)
        (max_retries + 1) 0 st k lastErr).events.count (REvent.invoke "local")
      = max_retries + 1 ∧
    local_fallback
        [("local", ({ capabilities := ["chat"], endpoint := "http://127.0.0.1:8080" } : ProviderCfg))]
        (fun _ => none) (fun i => ⟨.transportError (msg i), took, now1⟩) "chat"
        [("local", ({ capabilities := ["chat"], endpoint := "http://127.0.0.1:8080" } : ProviderCfg))]
        k0 events0 =
      (.error (msg k0), k0 + 1, events0 ++ [REvent.invoke "local"]) := by
  have h := attempt_loop_all_fail
    [("local", ({ capabilities := ["chat"], endpoint := "http://127.0.0.1:8080" } : ProviderCfg))]
    (fun _ => none) (fun i => ⟨.transportError (msg i), took, now1⟩) "local"
    ({ capabilities := ["chat"], endpoint := "http://127.0.0.1:8080" } : ProviderCfg)
    (max_retries + 1) 0 k st lastErr (fun i _ => rfl)
  exact ⟨h.1, by rw [h.2.2.2]; exact backoff_events_count _ _ 0, rfl⟩

-- -------------------------
-- Shallow-copy payload aliasing (claim C10)
theorem apply_cot_heap_of_no_messages (s : Bool) (cp : String) (payload : Payload)
    (heap : Heap) (h : payload.messages = none) :
    ∃ pl, apply_cot s cp payload heap = .ok (pl, heap) := by
  unfold apply_cot
  dsimp only
  by_cases hs : (s && !(cp == "")) = true
  · rw [if_pos hs, h]
    cases payload.prompt <;> exact ⟨_, rfl⟩
  · rw [if_neg hs]
    exact ⟨_, rfl⟩

theorem try_candidates_heap (providers : List (String × ProviderCfg))
    (env : String → Option String) (cot : CotConfig) (oracle : Nat → CallCtx)
    (task_type : String) (payload : Payload) (max_retries : Nat)
    (h : payload.messages = none) :
    ∀ (pids : List String) (heap : Heap) (st : RouterState) (k : Nat)
      (events : List REvent) (lastErr : Option String),
      (try_candidates providers env cot oracle task_type payload max_retries
        pids heap st k events lastErr).heap = heap := by
  intro pids
  induction pids with
  | nil => intro heap st k events lastErr; rfl
  | cons pid rest ih =>
      intro heap st k events lastErr
      simp only [try_candidates]
      cases lookupProvider providers pid with
      | none => rfl
      | some cfg =>
          dsimp only
          cases model_name cfg with
          | error e => rfl
          | ok mname =>
              dsimp only
              obtain ⟨pl, hac⟩ := apply_cot_heap_of_no_messages
                (should_suppress_cot providers cot task_type pid).1
                (should_suppress_cot providers cot task_type pid).2 payload heap h
              rw [hac]
              dsimp only
              cases (attempt_loop providers env oracle pid cfg (max_retries + 1) 0 st k
                  lastErr).success with
              | none => exact ih _ _ _ _ _
              | some pr => rfl

/-- C10: `route_task` copies the payload only shallowly.  First conjunct:
for every call whose payload is prompt-style (a `prompt` key, no `messages`
key), the caller's message heap — and hence the caller's payload object — is
unchanged after the whole `route_task` call: the suppression prompt is
prefixed onto the *copy*'s `prompt` entry only.  Second conjunct: when the
payload carries a `messages` list, suppression applies with a non-empty
prompt, and the last message's role is `"user"`, the enhancement step writes
through the shared message address: it returns the same payload addresses
and a heap whose last message now carries the prefixed content, so the
caller's original payload observes the mutation in place. -/
theorem payload_shallow_copy_aliasing (providers : List (String × ProviderCfg))
    (env : String → Option String) (cot : CotConfig) (costOpt : CostOpt)
    (w : Weights) (task_type : String) (payload : Payload) (heap : Heap)
    (pl pc : Bool) (mr : Nat) (oracle : Nat → CallCtx) (jitterOf : String → ℚ)
    (now0 : ℚ) (st : RouterState) (s : String) (payload2 : Payload)
    (heap2 : Heap) (cp : String) (addrs : List Addr) (a : Addr) :
    (payload.prompt = some s → payload.messages = none →
      (route_task providers env cot costOpt w task_type payload heap pl pc mr
        oracle jitterOf now0 st).heap = heap) ∧
    (payload2.messages = some addrs → addrs.getLast? = some a →
      (heap2 a).role = "user" → cp ≠ "" →
      apply_cot true cp payload2 heap2 =
        .ok (payload2, Function.update heap2 a
          { role := (heap2 a).role, content := cp ++ "\n\n" ++ (heap2 a).content }) ∧
      Function.update heap2 a
          { role := (heap2 a).role, content := cp ++ "\n\n" ++ (heap2 a).content } a =
        { role := (heap2 a).role, content := cp ++ "\n\n" ++ (heap2 a).content }) := by
  constructor
  · intro _ hmsg
    unfold route_task
    dsimp only
    split
    · rfl
    · split
      · rfl
      · split
        · exact try_candidates_heap _ _ _ _ _ _ _ hmsg _ _ _ _ _ _
        · exact try_candidates_heap _ _ _ _ _ _ _ hmsg _ _ _ _ _ _
        · split
          · exact try_candidates_heap _ _ _ _ _ _ _ hmsg _ _ _ _ _ _
          · exact try_candidates_heap _ _ _ _ _ _ _ hmsg _ _ _ _ _ _
          · exact try_candidates_heap _ _ _ _ _ _ _ hmsg _ _ _ _ _ _
  · intro hmsg hlast hrole hcp
    refine ⟨?_, Function.update_same _ _ _⟩
    unfold apply_cot
    dsimp only
    rw [if_pos (by simp [hcp]), hmsg]
    dsimp only
    rw [hlast]
    dsimp only
    rw [if_pos (by simp [hrole])]

/-- Witness for C10: a prompt-style payload leaves the caller's heap
untouched across a full `route_task` call, while a messages-style payload
under suppression is mutated in place through the shared address. -/
theorem payload_shallow_copy_aliasing_witness :
    (route_task
        [("local", ({ capabilities := ["chat"], endpoint := "http://127.0.0.1:8080" } : ProviderCfg))]
        (fun _ => none) {} {} {} "chat" { prompt := some "hi" }
        (fun _ => ⟨"user", "hello"⟩) false false 1
        (fun _ => ⟨.response 500 none, 10, 0⟩) (fun _ => 0) 0
        RouterState.init).heap = (fun _ => (⟨"user", "hello"⟩ : Msg)) ∧
    apply_cot true "Be direct and concise." { messages := some [0] }
        (fun _ => ⟨"user", "hello"⟩) =
      .ok ({ messages := some [0] },
        Function.update (fun _ => (⟨"user", "hello"⟩ : Msg)) 0
          { role := "user", content := "Be direct and concise." ++ "\n\n" ++ "hello" }) :=
  ⟨(payload_shallow_copy_aliasing
      [("local", ({ capabilities := ["chat"], endpoint := "http://127.0.0.1:8080" } : ProviderCfg))]
      (fun _ => none) {} {} {} "chat" { prompt := some "hi" }
      (fun _ => ⟨"user", "hello"⟩) false false 1
      (fun _ => ⟨.response 500 none, 10, 0⟩) (fun _ => 0) 0
      RouterState.init "hi" { messages := some [0] } (fun _ => ⟨"user", "hello"⟩)
      "Be direct and concise." [0] 0).1 rfl rfl,
   ((payload_shallow_copy_aliasing
      [("local", ({ capabilities := ["chat"], endpoint := "http://127.0.0.1:8080" } : ProviderCfg))]
      (fun _ => none) {} {} {} "chat" { prompt := some "hi" }
      (fun _ => ⟨"user", "hello"⟩) false false 1
      (fun _ => ⟨.response 500 none, 10, 0⟩) (fun _ => 0) 0
      RouterState.init "hi" { messages := some [0] } (fun _ => ⟨"user", "hello"⟩)
      "Be direct and concise." [0] 0).2 rfl rfl rfl (by decide)).1⟩

end GoblinRouting
